import Mathlib

/-!
# PalRedhawkCommon.h

A shallow embedding of `src/Native/Runtime/PalRedhawkCommon.h`: the capability
constants `PalCapability`, the 128-bit storage type `Fp128`, and the structure
`PAL_LIMITED_CONTEXT` in each of the shapes the conditional compilation selects
(ARM, ARM64, Unix AMD64 ABI, x86, AMD64, and the branch taken when no target is
known), together with the inline accessors of each shape.

Conventions.
* A machine word is a natural number; the width of `UIntNative` is a parameter
  `bits`, and passing an integer to a `UIntNative` parameter reduces it modulo
  `2 ^ bits`.
* A member function that mutates the structure (`void SetIp(UIntNative)`) is a
  function from the structure before the call to the structure after it.
* A function that may halt the program returns `Except String _`, the error
  carrying the message of the assertion that halted it.
-/

namespace PalRedhawk

/-! ## Capabilities -/

/-- The enumeration `PalCapability`. -/
inductive PalCapability where
  | WriteWatchCapability
  | LowMemoryNotificationCapability
  | GetCurrentProcessorNumberCapability
  deriving DecidableEq

/-- The enumerator values of `PalCapability`, as written in the header. -/
def PalCapability.value : PalCapability → Nat
  | .WriteWatchCapability => 0x00000001
  | .LowMemoryNotificationCapability => 0x00000002
  | .GetCurrentProcessorNumberCapability => 0x00000004

/-- The bitwise OR of the values of a collection of capability flags (the way a
caller combines flags into one mask). -/
def capabilityMask : List PalCapability → Nat
  | [] => 0
  | f :: fs => f.value ||| capabilityMask fs

/-! ## Native types -/

/-- Modelled from the spec: the typedef `UIntNative` lives in a header that is not
part of this file (only its uses are). The spec says that "all addresses are stored
as the platform's native-width unsigned integer (pointer-sized)". A value of the
type is a natural number; the width in bits is a parameter of whatever converts
into the type. -/
abbrev UIntNative := Nat

/-- Conversion of an integer to a `UIntNative` of `bits` bits (what happens to an
argument passed to a `UIntNative` parameter): reduction modulo `2 ^ bits`. -/
def UIntNative.ofNat (bits n : Nat) : UIntNative := n % 2 ^ bits

/-- The structure `Fp128`: `UInt64 Low; Int64 High;`. -/
structure Fp128 where
  Low : Nat
  High : Int

/-! ## `PAL_LIMITED_CONTEXT`, branch `_TARGET_ARM_` -/

namespace ARM

/-- The fields of `PAL_LIMITED_CONTEXT` under `_TARGET_ARM_`, in declaration order.
`D` is `UInt64 D[16-8]`. -/
structure PAL_LIMITED_CONTEXT where
  R0 : UIntNative
  R4 : UIntNative
  R5 : UIntNative
  R6 : UIntNative
  R7 : UIntNative
  R8 : UIntNative
  R9 : UIntNative
  R10 : UIntNative
  R11 : UIntNative
  IP : UIntNative
  SP : UIntNative
  LR : UIntNative
  D : Fin (16 - 8) → Nat

/-- `UIntNative GetIp() const { return IP; }` -/
def PAL_LIMITED_CONTEXT.GetIp (c : PAL_LIMITED_CONTEXT) : UIntNative := c.IP

/-- `UIntNative GetSp() const { return SP; }` -/
def PAL_LIMITED_CONTEXT.GetSp (c : PAL_LIMITED_CONTEXT) : UIntNative := c.SP

/-- `UIntNative GetFp() const { return R7; }` -/
def PAL_LIMITED_CONTEXT.GetFp (c : PAL_LIMITED_CONTEXT) : UIntNative := c.R7

/-- `UIntNative GetLr() const { return LR; }` -/
def PAL_LIMITED_CONTEXT.GetLr (c : PAL_LIMITED_CONTEXT) : UIntNative := c.LR

/-- `void SetIp(UIntNative ip) { IP = ip; }` -/
def PAL_LIMITED_CONTEXT.SetIp (bits : Nat) (c : PAL_LIMITED_CONTEXT) (ip : Nat) :
    PAL_LIMITED_CONTEXT :=
  { c with IP := UIntNative.ofNat bits ip }

/-- `void SetSp(UIntNative sp) { SP = sp; }` -/
def PAL_LIMITED_CONTEXT.SetSp (bits : Nat) (c : PAL_LIMITED_CONTEXT) (sp : Nat) :
    PAL_LIMITED_CONTEXT :=
  { c with SP := UIntNative.ofNat bits sp }

end ARM

/-! ## `PAL_LIMITED_CONTEXT`, branch `_TARGET_ARM64_` -/

namespace ARM64

/-- The fields of `PAL_LIMITED_CONTEXT` under `_TARGET_ARM64_`, in declaration
order. `D` is `UInt64 D[16 - 8]`. -/
structure PAL_LIMITED_CONTEXT where
  FP : UIntNative
  LR : UIntNative
  X0 : UIntNative
  X1 : UIntNative
  X19 : UIntNative
  X20 : UIntNative
  X21 : UIntNative
  X22 : UIntNative
  X23 : UIntNative
  X24 : UIntNative
  X25 : UIntNative
  X26 : UIntNative
  X27 : UIntNative
  X28 : UIntNative
  SP : UIntNative
  IP : UIntNative
  D : Fin (16 - 8) → Nat

/-- `UIntNative GetIp() const { return IP; }` -/
def PAL_LIMITED_CONTEXT.GetIp (c : PAL_LIMITED_CONTEXT) : UIntNative := c.IP

/-- `UIntNative GetSp() const { return SP; }` -/
def PAL_LIMITED_CONTEXT.GetSp (c : PAL_LIMITED_CONTEXT) : UIntNative := c.SP

/-- `UIntNative GetFp() const { return FP; }` -/
def PAL_LIMITED_CONTEXT.GetFp (c : PAL_LIMITED_CONTEXT) : UIntNative := c.FP

/-- `UIntNative GetLr() const { return LR; }` -/
def PAL_LIMITED_CONTEXT.GetLr (c : PAL_LIMITED_CONTEXT) : UIntNative := c.LR

/-- `void SetIp(UIntNative ip) { IP = ip; }` -/
def PAL_LIMITED_CONTEXT.SetIp (bits : Nat) (c : PAL_LIMITED_CONTEXT) (ip : Nat) :
    PAL_LIMITED_CONTEXT :=
  { c with IP := UIntNative.ofNat bits ip }

/-- `void SetSp(UIntNative sp) { SP = sp; }` -/
def PAL_LIMITED_CONTEXT.SetSp (bits : Nat) (c : PAL_LIMITED_CONTEXT) (sp : Nat) :
    PAL_LIMITED_CONTEXT :=
  { c with SP := UIntNative.ofNat bits sp }

end ARM64

/-! ## `PAL_LIMITED_CONTEXT`, branch `UNIX_AMD64_ABI` -/

namespace UNIX_AMD64_ABI

/-- The fields of `PAL_LIMITED_CONTEXT` under `UNIX_AMD64_ABI`, in declaration
order. -/
structure PAL_LIMITED_CONTEXT where
  IP : UIntNative
  Rsp : UIntNative
  Rbp : UIntNative
  Rax : UIntNative
  Rbx : UIntNative
  Rdx : UIntNative
  R12 : UIntNative
  R13 : UIntNative
  R14 : UIntNative
  R15 : UIntNative

/-- `UIntNative GetIp() const { return IP; }` -/
def PAL_LIMITED_CONTEXT.GetIp (c : PAL_LIMITED_CONTEXT) : UIntNative := c.IP

/-- `UIntNative GetSp() const { return Rsp; }` -/
def PAL_LIMITED_CONTEXT.GetSp (c : PAL_LIMITED_CONTEXT) : UIntNative := c.Rsp

/-- `void SetIp(UIntNative ip) { IP = ip; }` -/
def PAL_LIMITED_CONTEXT.SetIp (bits : Nat) (c : PAL_LIMITED_CONTEXT) (ip : Nat) :
    PAL_LIMITED_CONTEXT :=
  { c with IP := UIntNative.ofNat bits ip }

/-- `void SetSp(UIntNative sp) { Rsp = sp; }` -/
def PAL_LIMITED_CONTEXT.SetSp (bits : Nat) (c : PAL_LIMITED_CONTEXT) (sp : Nat) :
    PAL_LIMITED_CONTEXT :=
  { c with Rsp := UIntNative.ofNat bits sp }

/-- `UIntNative GetFp() const { return Rbp; }` -/
def PAL_LIMITED_CONTEXT.GetFp (c : PAL_LIMITED_CONTEXT) : UIntNative := c.Rbp

end UNIX_AMD64_ABI

/-! ## `PAL_LIMITED_CONTEXT`, branch `_TARGET_X86_ || _TARGET_AMD64_`

The branch declares seven fields for both targets and, inside
`#ifdef _TARGET_AMD64_`, fifteen more. The two field sets are two structures; the
accessors, which the source writes once, are the same on both. -/

namespace X86

/-- The fields of `PAL_LIMITED_CONTEXT` under `_TARGET_X86_` (`_TARGET_AMD64_` not
defined), in declaration order. -/
structure PAL_LIMITED_CONTEXT where
  IP : UIntNative
  Rsp : UIntNative
  Rbp : UIntNative
  Rdi : UIntNative
  Rsi : UIntNative
  Rax : UIntNative
  Rbx : UIntNative

/-- `UIntNative GetIp() const { return IP; }` -/
def PAL_LIMITED_CONTEXT.GetIp (c : PAL_LIMITED_CONTEXT) : UIntNative := c.IP

/-- `UIntNative GetSp() const { return Rsp; }` -/
def PAL_LIMITED_CONTEXT.GetSp (c : PAL_LIMITED_CONTEXT) : UIntNative := c.Rsp

/-- `UIntNative GetFp() const { return Rbp; }` -/
def PAL_LIMITED_CONTEXT.GetFp (c : PAL_LIMITED_CONTEXT) : UIntNative := c.Rbp

/-- `void SetIp(UIntNative ip) { IP = ip; }` -/
def PAL_LIMITED_CONTEXT.SetIp (bits : Nat) (c : PAL_LIMITED_CONTEXT) (ip : Nat) :
    PAL_LIMITED_CONTEXT :=
  { c with IP := UIntNative.ofNat bits ip }

/-- `void SetSp(UIntNative sp) { Rsp = sp; }` -/
def PAL_LIMITED_CONTEXT.SetSp (bits : Nat) (c : PAL_LIMITED_CONTEXT) (sp : Nat) :
    PAL_LIMITED_CONTEXT :=
  { c with Rsp := UIntNative.ofNat bits sp }

end X86

namespace AMD64

/-- The fields of `PAL_LIMITED_CONTEXT` under `_TARGET_AMD64_` (without
`UNIX_AMD64_ABI`), in declaration order. -/
structure PAL_LIMITED_CONTEXT where
  IP : UIntNative
  Rsp : UIntNative
  Rbp : UIntNative
  Rdi : UIntNative
  Rsi : UIntNative
  Rax : UIntNative
  Rbx : UIntNative
  R12 : UIntNative
  R13 : UIntNative
  R14 : UIntNative
  R15 : UIntNative
  __explicit_padding__ : UIntNative
  Xmm6 : Fp128
  Xmm7 : Fp128
  Xmm8 : Fp128
  Xmm9 : Fp128
  Xmm10 : Fp128
  Xmm11 : Fp128
  Xmm12 : Fp128
  Xmm13 : Fp128
  Xmm14 : Fp128
  Xmm15 : Fp128

/-- `UIntNative GetIp() const { return IP; }` -/
def PAL_LIMITED_CONTEXT.GetIp (c : PAL_LIMITED_CONTEXT) : UIntNative := c.IP

/-- `UIntNative GetSp() const { return Rsp; }` -/
def PAL_LIMITED_CONTEXT.GetSp (c : PAL_LIMITED_CONTEXT) : UIntNative := c.Rsp

/-- `UIntNative GetFp() const { return Rbp; }` -/
def PAL_LIMITED_CONTEXT.GetFp (c : PAL_LIMITED_CONTEXT) : UIntNative := c.Rbp

/-- `void SetIp(UIntNative ip) { IP = ip; }` -/
def PAL_LIMITED_CONTEXT.SetIp (bits : Nat) (c : PAL_LIMITED_CONTEXT) (ip : Nat) :
    PAL_LIMITED_CONTEXT :=
  { c with IP := UIntNative.ofNat bits ip }

/-- `void SetSp(UIntNative sp) { Rsp = sp; }` -/
def PAL_LIMITED_CONTEXT.SetSp (bits : Nat) (c : PAL_LIMITED_CONTEXT) (sp : Nat) :
    PAL_LIMITED_CONTEXT :=
  { c with Rsp := UIntNative.ofNat bits sp }

end AMD64

/-! ## `PAL_LIMITED_CONTEXT`, the `#else` branch (no known target) -/

/-- Modelled from the spec: the macro `PORTABILITY_ASSERT` comes from `rhassert.h`,
which is not part of this file (only its uses are). The spec describes the failure
of an accessor on an unimplemented platform as a "fatal, immediate program halt
(unrecoverable assertion), never a recoverable error". The macro halts the program;
the halt carries the macro's message argument. -/
def PORTABILITY_ASSERT (message : String) : Except String Unit :=
  Except.error message

namespace Fallback

/-- The single field of `PAL_LIMITED_CONTEXT` in the `#else` branch. -/
structure PAL_LIMITED_CONTEXT where
  IP : UIntNative

/-- `UIntNative GetIp() const { PORTABILITY_ASSERT("GetIp");  return 0; }` -/
def PAL_LIMITED_CONTEXT.GetIp (_c : PAL_LIMITED_CONTEXT) : Except String UIntNative := do
  PORTABILITY_ASSERT "GetIp"
  return 0

/-- `UIntNative GetSp() const { PORTABILITY_ASSERT("GetSp"); return 0; }` -/
def PAL_LIMITED_CONTEXT.GetSp (_c : PAL_LIMITED_CONTEXT) : Except String UIntNative := do
  PORTABILITY_ASSERT "GetSp"
  return 0

/-- `UIntNative GetFp() const { PORTABILITY_ASSERT("GetFp"); return 0; }` -/
def PAL_LIMITED_CONTEXT.GetFp (_c : PAL_LIMITED_CONTEXT) : Except String UIntNative := do
  PORTABILITY_ASSERT "GetFp"
  return 0

/-- `void SetIp(UIntNative ip) { PORTABILITY_ASSERT("SetIp"); }`. The result pairs the
outcome of the call with the structure as the call leaves it. -/
def PAL_LIMITED_CONTEXT.SetIp (c : PAL_LIMITED_CONTEXT) (_ip : Nat) :
    Except String Unit × PAL_LIMITED_CONTEXT :=
  (PORTABILITY_ASSERT "SetIp", c)

/-- `void SetSp(UIntNative sp) { PORTABILITY_ASSERT("GetSp"); }`. The result pairs the
outcome of the call with the structure as the call leaves it. -/
def PAL_LIMITED_CONTEXT.SetSp (c : PAL_LIMITED_CONTEXT) (_sp : Nat) :
    Except String Unit × PAL_LIMITED_CONTEXT :=
  (PORTABILITY_ASSERT "GetSp", c)

end Fallback

/-- The outcome of a call is a fatal halt. -/
def halts {α : Type} : Except String α → Bool
  | Except.error _ => true
  | Except.ok _ => false

/-- The message of the assertion that halted a call, if the call halted. -/
def haltMessage {α : Type} : Except String α → Option String
  | Except.error m => some m
  | Except.ok _ => none

/-! ## Which accessors each branch declares -/

/-- The branches of the conditional compilation of `PAL_LIMITED_CONTEXT`; the branch
`_TARGET_X86_ || _TARGET_AMD64_` is listed once per target. -/
inductive Target where
  | ARM
  | ARM64
  | UNIX_AMD64_ABI
  | X86
  | AMD64
  | Fallback
  deriving DecidableEq

/-- The names of the member functions that occur in `PAL_LIMITED_CONTEXT`. -/
inductive Accessor where
  | GetIp
  | GetSp
  | GetFp
  | GetLr
  | SetIp
  | SetSp
  deriving DecidableEq

/-- The member functions each branch declares, in the order the header declares
them. -/
def declaredAccessors : Target → List Accessor
  | .ARM => [.GetIp, .GetSp, .GetFp, .GetLr, .SetIp, .SetSp]
  | .ARM64 => [.GetIp, .GetSp, .GetFp, .GetLr, .SetIp, .SetSp]
  | .UNIX_AMD64_ABI => [.GetIp, .GetSp, .SetIp, .SetSp, .GetFp]
  | .X86 => [.GetIp, .GetSp, .GetFp, .SetIp, .SetSp]
  | .AMD64 => [.GetIp, .GetSp, .GetFp, .SetIp, .SetSp]
  | .Fallback => [.GetIp, .GetSp, .GetFp, .SetIp, .SetSp]

/-! ## Sequences of setter calls -/

/-- One call of a setter: `SetIp(ip)` or `SetSp(sp)`. -/
inductive Mutation where
  | SetIp (ip : Nat)
  | SetSp (sp : Nat)

/-- The effect of one setter call, given the two setters of a branch. -/
def Mutation.apply {C : Type} (setIp setSp : C → Nat → C) (c : C) : Mutation → C
  | .SetIp ip => setIp c ip
  | .SetSp sp => setSp c sp

/-- The effect of a finite sequence of setter calls, performed from left to right. -/
def Mutation.run {C : Type} (setIp setSp : C → Nat → C) : List Mutation → C → C
  | [], c => c
  | m :: ms, c => Mutation.run setIp setSp ms (Mutation.apply setIp setSp c m)

/-! ## Structure layout

The header fixes the order, the types and the alignment attribute of the members;
the offsets follow from the usual layout rule for a C structure: members are placed
in declaration order, each at the next multiple of its alignment; the structure is
aligned as its most aligned member (or as its alignment attribute, if that is
larger); its size is the end of the last member, rounded up to its alignment. -/

/-- A member of a structure: its name, its size and its alignment, in bytes. -/
structure Member where
  name : String
  size : Nat
  align : Nat

/-- The least multiple of `align` that is at least `offset`. -/
def alignUp (offset align : Nat) : Nat :=
  (offset + align - 1) / align * align

/-- The offset of every member, the first one placed at or after `start`. -/
def memberOffsets : Nat → List Member → List (String × Nat)
  | _, [] => []
  | start, m :: ms =>
    (m.name, alignUp start m.align) :: memberOffsets (alignUp start m.align + m.size) ms

/-- The offset at which the last member ends, the first one placed at or after
`start`. -/
def membersEnd : Nat → List Member → Nat
  | start, [] => start
  | start, m :: ms => membersEnd (alignUp start m.align + m.size) ms

/-- The offsets the members would have with no padding at all: each member starts
where the previous one ends. -/
def packedOffsets : Nat → List Member → List (String × Nat)
  | _, [] => []
  | start, m :: ms => (m.name, start) :: packedOffsets (start + m.size) ms

/-- The alignment of a structure with alignment attribute `declared` (`1` when it
has none). -/
def structAlign (declared : Nat) (ms : List Member) : Nat :=
  ms.foldl (fun a m => max a m.align) declared

/-- The size of a structure with alignment attribute `declared`. -/
def structSize (declared : Nat) (ms : List Member) : Nat :=
  alignUp (membersEnd 0 ms) (structAlign declared ms)

/-- `#define DECLSPEC_ALIGN(x)`: `__declspec(align(x))` or
`__attribute__((aligned(x)))`, an alignment of `x` bytes. -/
def DECLSPEC_ALIGN (x : Nat) : Nat := x

/-- `AMD64_ALIGN_16`: `DECLSPEC_ALIGN(16)` when `_AMD64_` is defined, and empty (no
alignment attribute, written `1`) when it is not. -/
def AMD64_ALIGN_16 (amd64Defined : Bool) : Nat :=
  if amd64Defined then DECLSPEC_ALIGN 16 else 1

/-- The members of `struct AMD64_ALIGN_16 Fp128`: `UInt64 Low; Int64 High;`, both
of eight bytes. -/
def Fp128.members : List Member :=
  [⟨"Low", 8, 8⟩, ⟨"High", 8, 8⟩]

/-- A member of type `UIntNative`, for a native word of `nativeBytes` bytes. -/
def Member.native (nativeBytes : Nat) (name : String) : Member :=
  ⟨name, nativeBytes, nativeBytes⟩

/-- A member of type `Fp128`; `amd64Defined` says whether `_AMD64_` is defined. -/
def Member.fp128 (amd64Defined : Bool) (name : String) : Member :=
  ⟨name, structSize (AMD64_ALIGN_16 amd64Defined) Fp128.members,
    structAlign (AMD64_ALIGN_16 amd64Defined) Fp128.members⟩

/-- The general-purpose members of `PAL_LIMITED_CONTEXT` under `_TARGET_AMD64_`,
up to and including `__explicit_padding__`, in declaration order. -/
def AMD64.generalMembers (nativeBytes : Nat) : List Member :=
  ["IP", "Rsp", "Rbp", "Rdi", "Rsi", "Rax", "Rbx", "R12", "R13", "R14", "R15",
    "__explicit_padding__"].map (Member.native nativeBytes)

/-- The `Fp128` members of `PAL_LIMITED_CONTEXT` under `_TARGET_AMD64_`, in
declaration order. -/
def AMD64.xmmMembers (amd64Defined : Bool) : List Member :=
  ["Xmm6", "Xmm7", "Xmm8", "Xmm9", "Xmm10", "Xmm11", "Xmm12", "Xmm13", "Xmm14",
    "Xmm15"].map (Member.fp128 amd64Defined)

/-- All members of `PAL_LIMITED_CONTEXT` under `_TARGET_AMD64_`, in declaration
order. -/
def AMD64.members (nativeBytes : Nat) (amd64Defined : Bool) : List Member :=
  AMD64.generalMembers nativeBytes ++ AMD64.xmmMembers amd64Defined

/-! ## Concrete contexts

One context per branch, with instruction pointer `0x1000`, stack pointer `0x2000`
and pairwise different values in the other registers. -/

/-- A context of the ARM branch. -/
def ARM.sample : ARM.PAL_LIMITED_CONTEXT :=
  { R0 := 10, R4 := 14, R5 := 15, R6 := 16, R7 := 17, R8 := 18, R9 := 19, R10 := 20,
    R11 := 21, IP := 0x1000, SP := 0x2000, LR := 0x3000, D := fun k => 100 + k.val }

/-- A context of the ARM64 branch. -/
def ARM64.sample : ARM64.PAL_LIMITED_CONTEXT :=
  { FP := 0x4000, LR := 0x3000, X0 := 10, X1 := 11, X19 := 29, X20 := 30, X21 := 31,
    X22 := 32, X23 := 33, X24 := 34, X25 := 35, X26 := 36, X27 := 37, X28 := 38,
    SP := 0x2000, IP := 0x1000, D := fun k => 100 + k.val }

/-- A context of the Unix AMD64 branch. -/
def UNIX_AMD64_ABI.sample : UNIX_AMD64_ABI.PAL_LIMITED_CONTEXT :=
  { IP := 0x1000, Rsp := 0x2000, Rbp := 0x4000, Rax := 1, Rbx := 2, Rdx := 3,
    R12 := 12, R13 := 13, R14 := 14, R15 := 15 }

/-- A context of the x86 branch. -/
def X86.sample : X86.PAL_LIMITED_CONTEXT :=
  { IP := 0x1000, Rsp := 0x2000, Rbp := 0x4000, Rdi := 4, Rsi := 5, Rax := 1,
    Rbx := 2 }

/-- A context of the AMD64 branch. -/
def AMD64.sample : AMD64.PAL_LIMITED_CONTEXT :=
  { IP := 0x1000, Rsp := 0x2000, Rbp := 0x4000, Rdi := 4, Rsi := 5, Rax := 1,
    Rbx := 2, R12 := 12, R13 := 13, R14 := 14, R15 := 15, __explicit_padding__ := 0,
    Xmm6 := ⟨6, -6⟩, Xmm7 := ⟨7, -7⟩, Xmm8 := ⟨8, -8⟩, Xmm9 := ⟨9, -9⟩,
    Xmm10 := ⟨10, -10⟩, Xmm11 := ⟨11, -11⟩, Xmm12 := ⟨12, -12⟩, Xmm13 := ⟨13, -13⟩,
    Xmm14 := ⟨14, -14⟩, Xmm15 := ⟨15, -15⟩ }

/-- A context of the `#else` branch. -/
def Fallback.sample : Fallback.PAL_LIMITED_CONTEXT :=
  { IP := 0x1000 }

/-- A second context of the ARM branch: it agrees with `ARM.sample` on `IP`, `SP`,
`R7` and `LR` and differs from it everywhere else. -/
def ARM.sample2 : ARM.PAL_LIMITED_CONTEXT :=
  { R0 := 50, R4 := 54, R5 := 55, R6 := 56, R7 := 17, R8 := 58, R9 := 59, R10 := 60,
    R11 := 61, IP := 0x1000, SP := 0x2000, LR := 0x3000, D := fun k => 200 + k.val }

/-- A second context of the ARM64 branch: it agrees with `ARM64.sample` on `IP`,
`SP`, `FP` and `LR` and differs from it everywhere else. -/
def ARM64.sample2 : ARM64.PAL_LIMITED_CONTEXT :=
  { FP := 0x4000, LR := 0x3000, X0 := 50, X1 := 51, X19 := 69, X20 := 70, X21 := 71,
    X22 := 72, X23 := 73, X24 := 74, X25 := 75, X26 := 76, X27 := 77, X28 := 78,
    SP := 0x2000, IP := 0x1000, D := fun k => 200 + k.val }

/-- A second context of the Unix AMD64 branch: it agrees with
`UNIX_AMD64_ABI.sample` on `IP`, `Rsp` and `Rbp` and differs from it everywhere
else. -/
def UNIX_AMD64_ABI.sample2 : UNIX_AMD64_ABI.PAL_LIMITED_CONTEXT :=
  { IP := 0x1000, Rsp := 0x2000, Rbp := 0x4000, Rax := 51, Rbx := 52, Rdx := 53,
    R12 := 62, R13 := 63, R14 := 64, R15 := 65 }

/-- A second context of the x86 branch: it agrees with `X86.sample` on `IP`, `Rsp`
and `Rbp` and differs from it everywhere else. -/
def X86.sample2 : X86.PAL_LIMITED_CONTEXT :=
  { IP := 0x1000, Rsp := 0x2000, Rbp := 0x4000, Rdi := 54, Rsi := 55, Rax := 51,
    Rbx := 52 }

/-- A second context of the AMD64 branch: it agrees with `AMD64.sample` on `IP`,
`Rsp` and `Rbp` and differs from it everywhere else. -/
def AMD64.sample2 : AMD64.PAL_LIMITED_CONTEXT :=
  { IP := 0x1000, Rsp := 0x2000, Rbp := 0x4000, Rdi := 54, Rsi := 55, Rax := 51,
    Rbx := 52, R12 := 62, R13 := 63, R14 := 64, R15 := 65, __explicit_padding__ := 1,
    Xmm6 := ⟨56, -56⟩, Xmm7 := ⟨57, -57⟩, Xmm8 := ⟨58, -58⟩, Xmm9 := ⟨59, -59⟩,
    Xmm10 := ⟨60, -60⟩, Xmm11 := ⟨61, -61⟩, Xmm12 := ⟨62, -62⟩, Xmm13 := ⟨63, -63⟩,
    Xmm14 := ⟨64, -64⟩, Xmm15 := ⟨65, -65⟩ }

/-! ## Helper lemmas -/

/-- Converting a value that already fits the native width changes nothing. -/
theorem UIntNative.ofNat_of_lt {bits x : Nat} (hx : x < 2 ^ bits) :
    UIntNative.ofNat bits x = x :=
  Nat.mod_eq_of_lt hx

/-- A mask built from capability flags uses the three low bits only. -/
theorem capabilityMask_lt (S : List PalCapability) : capabilityMask S < 2 ^ 3 := by
  induction S with
  | nil => decide
  | cons f fs ih =>
    have hf : f.value < 2 ^ 3 := by cases f <;> decide
    exact Nat.or_lt_two_pow hf ih

/-- Adding one flag to a three-bit mask makes exactly that flag's bit appear. -/
theorem capability_or_and (m : Fin 8) (f g : PalCapability) :
    (f.value ||| m.val) &&& g.value ≠ 0 ↔ (g = f ∨ m.val &&& g.value ≠ 0) := by
  cases f <;> cases g <;> revert m <;> decide

/-- A mask has the bit of a flag exactly when the flag is among those combined. -/
theorem capabilityMask_and_iff (S : List PalCapability) (g : PalCapability) :
    capabilityMask S &&& g.value ≠ 0 ↔ g ∈ S := by
  induction S with
  | nil => simp [capabilityMask]
  | cons f fs ih =>
    have h := capability_or_and ⟨capabilityMask fs, capabilityMask_lt fs⟩ f g
    simp only [capabilityMask, List.mem_cons]
    rw [h, ih]

/-- Whatever both setters leave alone is left alone by every sequence of setter
calls. -/
theorem Mutation.run_preserves {C V : Type} (setIp setSp : C → Nat → C) (obs : C → V)
    (hIp : ∀ c x, obs (setIp c x) = obs c) (hSp : ∀ c x, obs (setSp c x) = obs c)
    (ms : List Mutation) (c : C) :
    obs (Mutation.run setIp setSp ms c) = obs c := by
  induction ms generalizing c with
  | nil => rfl
  | cons m ms ih =>
    rw [Mutation.run, ih]
    cases m with
    | SetIp ip => exact hIp c ip
    | SetSp sp => exact hSp c sp

/-! ## The round-trip law -/

/-- C1: on each of the five implemented shapes of `PAL_LIMITED_CONTEXT` (ARM, ARM64,
Unix AMD64, x86, AMD64), for every context and every value `x` of the native width,
`GetIp` after `SetIp(x)` returns `x` and `GetSp` after `SetSp(x)` returns `x`. -/
theorem setter_getter_roundtrip (bits x : Nat) (hx : x < 2 ^ bits)
    (a : ARM.PAL_LIMITED_CONTEXT) (b : ARM64.PAL_LIMITED_CONTEXT)
    (u : UNIX_AMD64_ABI.PAL_LIMITED_CONTEXT) (i : X86.PAL_LIMITED_CONTEXT)
    (m : AMD64.PAL_LIMITED_CONTEXT) :
    ((a.SetIp bits x).GetIp = x ∧ (a.SetSp bits x).GetSp = x) ∧
    ((b.SetIp bits x).GetIp = x ∧ (b.SetSp bits x).GetSp = x) ∧
    ((u.SetIp bits x).GetIp = x ∧ (u.SetSp bits x).GetSp = x) ∧
    ((i.SetIp bits x).GetIp = x ∧ (i.SetSp bits x).GetSp = x) ∧
    ((m.SetIp bits x).GetIp = x ∧ (m.SetSp bits x).GetSp = x) := by
  have h := UIntNative.ofNat_of_lt hx
  exact ⟨⟨h, h⟩, ⟨h, h⟩, ⟨h, h⟩, ⟨h, h⟩, ⟨h, h⟩⟩

/-- The round-trip law at the largest 64-bit value, on the five concrete contexts. -/
theorem setter_getter_roundtrip_witness :
    0xFFFFFFFFFFFFFFFF < 2 ^ 64 ∧
    (((ARM.sample.SetIp 64 0xFFFFFFFFFFFFFFFF).GetIp = 0xFFFFFFFFFFFFFFFF ∧
        (ARM.sample.SetSp 64 0xFFFFFFFFFFFFFFFF).GetSp = 0xFFFFFFFFFFFFFFFF) ∧
      ((ARM64.sample.SetIp 64 0xFFFFFFFFFFFFFFFF).GetIp = 0xFFFFFFFFFFFFFFFF ∧
        (ARM64.sample.SetSp 64 0xFFFFFFFFFFFFFFFF).GetSp = 0xFFFFFFFFFFFFFFFF) ∧
      ((UNIX_AMD64_ABI.sample.SetIp 64 0xFFFFFFFFFFFFFFFF).GetIp = 0xFFFFFFFFFFFFFFFF ∧
        (UNIX_AMD64_ABI.sample.SetSp 64 0xFFFFFFFFFFFFFFFF).GetSp = 0xFFFFFFFFFFFFFFFF) ∧
      ((X86.sample.SetIp 64 0xFFFFFFFFFFFFFFFF).GetIp = 0xFFFFFFFFFFFFFFFF ∧
        (X86.sample.SetSp 64 0xFFFFFFFFFFFFFFFF).GetSp = 0xFFFFFFFFFFFFFFFF) ∧
      ((AMD64.sample.SetIp 64 0xFFFFFFFFFFFFFFFF).GetIp = 0xFFFFFFFFFFFFFFFF ∧
        (AMD64.sample.SetSp 64 0xFFFFFFFFFFFFFFFF).GetSp = 0xFFFFFFFFFFFFFFFF)) :=
  ⟨by decide,
    setter_getter_roundtrip 64 0xFFFFFFFFFFFFFFFF (by decide) ARM.sample ARM64.sample
      UNIX_AMD64_ABI.sample X86.sample AMD64.sample⟩

/-! ## Each setter writes one field -/

/-- C2: on each of the five implemented shapes, `SetIp(x)` changes no stored field
but `IP` and `SetSp(x)` changes none but the stack pointer field: putting the old
value back into that one field gives the context before the call, and `GetSp` is
the same after `SetIp`, `GetIp` the same after `SetSp`. In particular a context
with `IP = 0x1000` and stack pointer `0x2000` has, after `SetIp(0x1010)`,
`GetSp() = 0x2000` and `GetIp() = 0x1010` (`0x1010` fitting the native width). -/
theorem setters_write_one_field (bits x : Nat)
    (a : ARM.PAL_LIMITED_CONTEXT) (b : ARM64.PAL_LIMITED_CONTEXT)
    (u : UNIX_AMD64_ABI.PAL_LIMITED_CONTEXT) (i : X86.PAL_LIMITED_CONTEXT)
    (m : AMD64.PAL_LIMITED_CONTEXT) :
    (({ a.SetIp bits x with IP := a.IP } = a ∧ { a.SetSp bits x with SP := a.SP } = a ∧
        (a.SetIp bits x).GetSp = a.GetSp ∧ (a.SetSp bits x).GetIp = a.GetIp) ∧
      ({ b.SetIp bits x with IP := b.IP } = b ∧ { b.SetSp bits x with SP := b.SP } = b ∧
        (b.SetIp bits x).GetSp = b.GetSp ∧ (b.SetSp bits x).GetIp = b.GetIp) ∧
      ({ u.SetIp bits x with IP := u.IP } = u ∧ { u.SetSp bits x with Rsp := u.Rsp } = u ∧
        (u.SetIp bits x).GetSp = u.GetSp ∧ (u.SetSp bits x).GetIp = u.GetIp) ∧
      ({ i.SetIp bits x with IP := i.IP } = i ∧ { i.SetSp bits x with Rsp := i.Rsp } = i ∧
        (i.SetIp bits x).GetSp = i.GetSp ∧ (i.SetSp bits x).GetIp = i.GetIp) ∧
      ({ m.SetIp bits x with IP := m.IP } = m ∧ { m.SetSp bits x with Rsp := m.Rsp } = m ∧
        (m.SetIp bits x).GetSp = m.GetSp ∧ (m.SetSp bits x).GetIp = m.GetIp)) ∧
    (0x1010 < 2 ^ bits →
      (a.GetIp = 0x1000 → a.GetSp = 0x2000 →
        (a.SetIp bits 0x1010).GetSp = 0x2000 ∧ (a.SetIp bits 0x1010).GetIp = 0x1010) ∧
      (b.GetIp = 0x1000 → b.GetSp = 0x2000 →
        (b.SetIp bits 0x1010).GetSp = 0x2000 ∧ (b.SetIp bits 0x1010).GetIp = 0x1010) ∧
      (u.GetIp = 0x1000 → u.GetSp = 0x2000 →
        (u.SetIp bits 0x1010).GetSp = 0x2000 ∧ (u.SetIp bits 0x1010).GetIp = 0x1010) ∧
      (i.GetIp = 0x1000 → i.GetSp = 0x2000 →
        (i.SetIp bits 0x1010).GetSp = 0x2000 ∧ (i.SetIp bits 0x1010).GetIp = 0x1010) ∧
      (m.GetIp = 0x1000 → m.GetSp = 0x2000 →
        (m.SetIp bits 0x1010).GetSp = 0x2000 ∧ (m.SetIp bits 0x1010).GetIp = 0x1010)) := by
  refine ⟨⟨⟨rfl, rfl, rfl, rfl⟩, ⟨rfl, rfl, rfl, rfl⟩, ⟨rfl, rfl, rfl, rfl⟩,
    ⟨rfl, rfl, rfl, rfl⟩, ⟨rfl, rfl, rfl, rfl⟩⟩, ?_⟩
  intro hx
  have h := UIntNative.ofNat_of_lt hx
  exact ⟨fun _ hs => ⟨hs, h⟩, fun _ hs => ⟨hs, h⟩, fun _ hs => ⟨hs, h⟩,
    fun _ hs => ⟨hs, h⟩, fun _ hs => ⟨hs, h⟩⟩

/-- The scenario of C2 on the five concrete contexts, with 32-bit native words: the
hypotheses hold there, and so do the conclusions. -/
theorem setters_write_one_field_witness :
    (0x1010 < 2 ^ 32 ∧ ARM.sample.GetIp = 0x1000 ∧ ARM.sample.GetSp = 0x2000 ∧
      ARM64.sample.GetIp = 0x1000 ∧ ARM64.sample.GetSp = 0x2000 ∧
      UNIX_AMD64_ABI.sample.GetIp = 0x1000 ∧ UNIX_AMD64_ABI.sample.GetSp = 0x2000 ∧
      X86.sample.GetIp = 0x1000 ∧ X86.sample.GetSp = 0x2000 ∧
      AMD64.sample.GetIp = 0x1000 ∧ AMD64.sample.GetSp = 0x2000) ∧
    ((ARM.sample.SetIp 32 0x1010).GetSp = 0x2000 ∧
      (ARM.sample.SetIp 32 0x1010).GetIp = 0x1010) ∧
    ((ARM64.sample.SetIp 32 0x1010).GetSp = 0x2000 ∧
      (ARM64.sample.SetIp 32 0x1010).GetIp = 0x1010) ∧
    ((UNIX_AMD64_ABI.sample.SetIp 32 0x1010).GetSp = 0x2000 ∧
      (UNIX_AMD64_ABI.sample.SetIp 32 0x1010).GetIp = 0x1010) ∧
    ((X86.sample.SetIp 32 0x1010).GetSp = 0x2000 ∧
      (X86.sample.SetIp 32 0x1010).GetIp = 0x1010) ∧
    ((AMD64.sample.SetIp 32 0x1010).GetSp = 0x2000 ∧
      (AMD64.sample.SetIp 32 0x1010).GetIp = 0x1010) :=
  have h := (setters_write_one_field 32 0x1010 ARM.sample ARM64.sample
    UNIX_AMD64_ABI.sample X86.sample AMD64.sample).2 (by decide)
  ⟨⟨by decide, rfl, rfl, rfl, rfl, rfl, rfl, rfl, rfl, rfl, rfl⟩,
    h.1 rfl rfl, h.2.1 rfl rfl, h.2.2.1 rfl rfl, h.2.2.2.1 rfl rfl, h.2.2.2.2 rfl rfl⟩

/-! ## Frame pointer and link register are not written -/

/-- C3: on each of the five implemented shapes, after any finite sequence of `SetIp`
and `SetSp` calls `GetFp` returns what it returned before the sequence, and on ARM
and ARM64, the shapes that have `GetLr`, so does `GetLr`. -/
theorem fp_lr_unchanged_by_setters (bits : Nat) (ms : List Mutation)
    (a : ARM.PAL_LIMITED_CONTEXT) (b : ARM64.PAL_LIMITED_CONTEXT)
    (u : UNIX_AMD64_ABI.PAL_LIMITED_CONTEXT) (i : X86.PAL_LIMITED_CONTEXT)
    (m : AMD64.PAL_LIMITED_CONTEXT) :
    ((Mutation.run (ARM.PAL_LIMITED_CONTEXT.SetIp bits) (ARM.PAL_LIMITED_CONTEXT.SetSp bits)
          ms a).GetFp = a.GetFp ∧
      (Mutation.run (ARM.PAL_LIMITED_CONTEXT.SetIp bits) (ARM.PAL_LIMITED_CONTEXT.SetSp bits)
          ms a).GetLr = a.GetLr) ∧
    ((Mutation.run (ARM64.PAL_LIMITED_CONTEXT.SetIp bits)
          (ARM64.PAL_LIMITED_CONTEXT.SetSp bits) ms b).GetFp = b.GetFp ∧
      (Mutation.run (ARM64.PAL_LIMITED_CONTEXT.SetIp bits)
          (ARM64.PAL_LIMITED_CONTEXT.SetSp bits) ms b).GetLr = b.GetLr) ∧
    (Mutation.run (UNIX_AMD64_ABI.PAL_LIMITED_CONTEXT.SetIp bits)
        (UNIX_AMD64_ABI.PAL_LIMITED_CONTEXT.SetSp bits) ms u).GetFp = u.GetFp ∧
    (Mutation.run (X86.PAL_LIMITED_CONTEXT.SetIp bits) (X86.PAL_LIMITED_CONTEXT.SetSp bits)
        ms i).GetFp = i.GetFp ∧
    (Mutation.run (AMD64.PAL_LIMITED_CONTEXT.SetIp bits)
        (AMD64.PAL_LIMITED_CONTEXT.SetSp bits) ms m).GetFp = m.GetFp :=
  ⟨⟨Mutation.run_preserves (ARM.PAL_LIMITED_CONTEXT.SetIp bits)
        (ARM.PAL_LIMITED_CONTEXT.SetSp bits) ARM.PAL_LIMITED_CONTEXT.GetFp
        (fun _ _ => rfl) (fun _ _ => rfl) ms a,
      Mutation.run_preserves (ARM.PAL_LIMITED_CONTEXT.SetIp bits)
        (ARM.PAL_LIMITED_CONTEXT.SetSp bits) ARM.PAL_LIMITED_CONTEXT.GetLr
        (fun _ _ => rfl) (fun _ _ => rfl) ms a⟩,
    ⟨Mutation.run_preserves (ARM64.PAL_LIMITED_CONTEXT.SetIp bits)
        (ARM64.PAL_LIMITED_CONTEXT.SetSp bits) ARM64.PAL_LIMITED_CONTEXT.GetFp
        (fun _ _ => rfl) (fun _ _ => rfl) ms b,
      Mutation.run_preserves (ARM64.PAL_LIMITED_CONTEXT.SetIp bits)
        (ARM64.PAL_LIMITED_CONTEXT.SetSp bits) ARM64.PAL_LIMITED_CONTEXT.GetLr
        (fun _ _ => rfl) (fun _ _ => rfl) ms b⟩,
    Mutation.run_preserves (UNIX_AMD64_ABI.PAL_LIMITED_CONTEXT.SetIp bits)
      (UNIX_AMD64_ABI.PAL_LIMITED_CONTEXT.SetSp bits) UNIX_AMD64_ABI.PAL_LIMITED_CONTEXT.GetFp
      (fun _ _ => rfl) (fun _ _ => rfl) ms u,
    Mutation.run_preserves (X86.PAL_LIMITED_CONTEXT.SetIp bits)
      (X86.PAL_LIMITED_CONTEXT.SetSp bits) X86.PAL_LIMITED_CONTEXT.GetFp
      (fun _ _ => rfl) (fun _ _ => rfl) ms i,
    Mutation.run_preserves (AMD64.PAL_LIMITED_CONTEXT.SetIp bits)
      (AMD64.PAL_LIMITED_CONTEXT.SetSp bits) AMD64.PAL_LIMITED_CONTEXT.GetFp
      (fun _ _ => rfl) (fun _ _ => rfl) ms m⟩

/-! ## The branch for an unknown target -/

/-- C4: in the `#else` branch the context stores an instruction pointer and nothing
else (a context is determined by its `IP`), and `GetSp`, `GetFp` and `SetSp` end in
the fatal portability assertion for every context and every argument: none of them
returns zero or returns normally. -/
theorem fallback_other_accessors_halt (c : Fallback.PAL_LIMITED_CONTEXT) (x : Nat) :
    c = { IP := c.IP } ∧
    halts c.GetSp = true ∧ halts c.GetFp = true ∧ halts (c.SetSp x).1 = true ∧
    c.GetSp ≠ Except.ok 0 ∧ c.GetFp ≠ Except.ok 0 ∧ (c.SetSp x).1 ≠ Except.ok () :=
  ⟨rfl, rfl, rfl, rfl, fun h => Except.noConfusion h, fun h => Except.noConfusion h,
    fun h => Except.noConfusion h⟩

/-- C9: in the `#else` branch no accessor returns normally. `GetIp` and `SetIp` end
in the fatal portability assertion like `GetSp`, `GetFp` and `SetSp`, for every
context and every argument: `GetIp` yields no value, and the call of `SetIp` leaves
the context, hence its `IP`, as it was. -/
theorem fallback_no_accessor_completes (c : Fallback.PAL_LIMITED_CONTEXT) (x v : Nat) :
    (halts c.GetIp = true ∧ halts (c.SetIp x).1 = true ∧ halts c.GetSp = true ∧
      halts c.GetFp = true ∧ halts (c.SetSp x).1 = true) ∧
    c.GetIp ≠ Except.ok v ∧ (c.SetIp x).1 ≠ Except.ok () ∧
    (c.SetIp x).2 = c ∧ (c.SetIp x).2.IP = c.IP :=
  ⟨⟨rfl, rfl, rfl, rfl, rfl⟩, fun h => Except.noConfusion h,
    fun h => Except.noConfusion h, rfl, rfl⟩

/-- C10: in the `#else` branch `GetIp`, `GetSp`, `GetFp` and `SetIp` halt with their
own name as the message, but `SetSp`, called on the context with `IP = 0x1000` with
the argument `0x2000`, halts with the message "GetSp", which is not its name
"SetSp". -/
theorem fallback_SetSp_message_is_GetSp :
    haltMessage (Fallback.sample.SetSp 0x2000).1 = some "GetSp" ∧
    haltMessage (Fallback.sample.SetSp 0x2000).1 ≠ some "SetSp" ∧
    haltMessage Fallback.sample.GetIp = some "GetIp" ∧
    haltMessage Fallback.sample.GetSp = some "GetSp" ∧
    haltMessage Fallback.sample.GetFp = some "GetFp" ∧
    haltMessage (Fallback.sample.SetIp 0x1010).1 = some "SetIp" := by
  refine ⟨rfl, ?_, rfl, rfl, rfl, rfl⟩
  decide

/-! ## The link-register accessor -/

/-- C5: `GetLr` is among the member functions a branch declares exactly when the
branch is ARM or ARM64; there it returns the stored `LR` field. The Unix AMD64, x86,
AMD64 and `#else` branches declare no `GetLr` at all. -/
theorem GetLr_declared_iff_arm (t : Target) (a : ARM.PAL_LIMITED_CONTEXT)
    (b : ARM64.PAL_LIMITED_CONTEXT) :
    (Accessor.GetLr ∈ declaredAccessors t ↔ (t = Target.ARM ∨ t = Target.ARM64)) ∧
    a.GetLr = a.LR ∧ b.GetLr = b.LR ∧
    Accessor.GetLr ∉ declaredAccessors Target.UNIX_AMD64_ABI ∧
    Accessor.GetLr ∉ declaredAccessors Target.X86 ∧
    Accessor.GetLr ∉ declaredAccessors Target.AMD64 ∧
    Accessor.GetLr ∉ declaredAccessors Target.Fallback := by
  refine ⟨?_, rfl, rfl, by decide, by decide, by decide, by decide⟩
  cases t <;> decide

/-! ## Capability flags -/

/-- C6: the three capability flags have the values 1, 2 and 4; each value is a
non-zero power of two; the values are pairwise different and the bitwise AND of any
two of them is zero; and for every collection `S` of flags and every flag `f`, the
bitwise OR of the values in `S` has a non-zero AND with the value of `f` if and only
if `f` is in `S`. -/
theorem capability_flags_independent (S : List PalCapability) (f : PalCapability) :
    (PalCapability.WriteWatchCapability.value = 1 ∧
      PalCapability.LowMemoryNotificationCapability.value = 2 ∧
      PalCapability.GetCurrentProcessorNumberCapability.value = 4) ∧
    (f.value ≠ 0 ∧ ∃ k, f.value = 2 ^ k) ∧
    (PalCapability.WriteWatchCapability.value ≠
        PalCapability.LowMemoryNotificationCapability.value ∧
      PalCapability.WriteWatchCapability.value ≠
        PalCapability.GetCurrentProcessorNumberCapability.value ∧
      PalCapability.LowMemoryNotificationCapability.value ≠
        PalCapability.GetCurrentProcessorNumberCapability.value) ∧
    (PalCapability.WriteWatchCapability.value &&&
        PalCapability.LowMemoryNotificationCapability.value = 0 ∧
      PalCapability.WriteWatchCapability.value &&&
        PalCapability.GetCurrentProcessorNumberCapability.value = 0 ∧
      PalCapability.LowMemoryNotificationCapability.value &&&
        PalCapability.GetCurrentProcessorNumberCapability.value = 0) ∧
    (capabilityMask S &&& f.value ≠ 0 ↔ f ∈ S) := by
  refine ⟨⟨rfl, rfl, rfl⟩, ?_, by decide, by decide, capabilityMask_and_iff S f⟩
  cases f
  · exact ⟨by decide, 0, rfl⟩
  · exact ⟨by decide, 1, rfl⟩
  · exact ⟨by decide, 2, rfl⟩

/-! ## Layout of the AMD64 shape -/

/-- C7: with 8-byte native words, the members of the AMD64 shape laid out in
declaration order sit at the offsets listed; the twelve members up to
`__explicit_padding__` end at byte 96, where `Xmm6` starts; every `Xmm` member
starts at a multiple of 16; no member needs padding before it (the offsets are
those of a packed layout) and none is needed at the end; the size is 256 bytes, a
multiple of 16. `Fp128` is 16 bytes, aligned to 16 when `_AMD64_` is defined and to
8 when it is not, and the offsets and the size are the same in both cases. -/
theorem amd64_layout (amd64Defined : Bool) :
    membersEnd 0 (AMD64.generalMembers 8) = 96 ∧
    memberOffsets 0 (AMD64.members 8 amd64Defined) =
      [("IP", 0), ("Rsp", 8), ("Rbp", 16), ("Rdi", 24), ("Rsi", 32), ("Rax", 40),
        ("Rbx", 48), ("R12", 56), ("R13", 64), ("R14", 72), ("R15", 80),
        ("__explicit_padding__", 88), ("Xmm6", 96), ("Xmm7", 112), ("Xmm8", 128),
        ("Xmm9", 144), ("Xmm10", 160), ("Xmm11", 176), ("Xmm12", 192), ("Xmm13", 208),
        ("Xmm14", 224), ("Xmm15", 240)] ∧
    ((memberOffsets 0 (AMD64.members 8 amd64Defined)).drop 12).all
      (fun p => p.2 % 16 == 0) = true ∧
    memberOffsets 0 (AMD64.members 8 amd64Defined) =
      packedOffsets 0 (AMD64.members 8 amd64Defined) ∧
    membersEnd 0 (AMD64.members 8 amd64Defined) = 256 ∧
    structSize 1 (AMD64.members 8 amd64Defined) = 256 ∧
    structSize 1 (AMD64.members 8 amd64Defined) % 16 = 0 ∧
    (Member.fp128 amd64Defined "Xmm6").size = 16 ∧
    (Member.fp128 amd64Defined "Xmm6").align = (if amd64Defined then 16 else 8) := by
  cases amd64Defined <;> decide

/-! ## Each getter reads the field it is named after -/

/-- C8: on each of the five implemented shapes every getter returns the field its
name denotes: `GetIp` the `IP` field; `GetSp` the field `SP` (ARM, ARM64) or `Rsp`
(Unix AMD64, x86, AMD64); `GetFp` the field `R7` (ARM), `FP` (ARM64) or `Rbp` (Unix
AMD64, x86, AMD64); `GetLr` the field `LR` (ARM, ARM64). Two contexts that agree on
that field give the same result, whatever their other fields hold. -/
theorem getters_read_named_field
    (a a' : ARM.PAL_LIMITED_CONTEXT) (b b' : ARM64.PAL_LIMITED_CONTEXT)
    (u u' : UNIX_AMD64_ABI.PAL_LIMITED_CONTEXT) (i i' : X86.PAL_LIMITED_CONTEXT)
    (m m' : AMD64.PAL_LIMITED_CONTEXT) :
    ((a.GetIp = a.IP ∧ a.GetSp = a.SP ∧ a.GetFp = a.R7 ∧ a.GetLr = a.LR) ∧
      (b.GetIp = b.IP ∧ b.GetSp = b.SP ∧ b.GetFp = b.FP ∧ b.GetLr = b.LR) ∧
      (u.GetIp = u.IP ∧ u.GetSp = u.Rsp ∧ u.GetFp = u.Rbp) ∧
      (i.GetIp = i.IP ∧ i.GetSp = i.Rsp ∧ i.GetFp = i.Rbp) ∧
      (m.GetIp = m.IP ∧ m.GetSp = m.Rsp ∧ m.GetFp = m.Rbp)) ∧
    ((a.IP = a'.IP → a.GetIp = a'.GetIp) ∧ (a.SP = a'.SP → a.GetSp = a'.GetSp) ∧
      (a.R7 = a'.R7 → a.GetFp = a'.GetFp) ∧ (a.LR = a'.LR → a.GetLr = a'.GetLr)) ∧
    ((b.IP = b'.IP → b.GetIp = b'.GetIp) ∧ (b.SP = b'.SP → b.GetSp = b'.GetSp) ∧
      (b.FP = b'.FP → b.GetFp = b'.GetFp) ∧ (b.LR = b'.LR → b.GetLr = b'.GetLr)) ∧
    ((u.IP = u'.IP → u.GetIp = u'.GetIp) ∧ (u.Rsp = u'.Rsp → u.GetSp = u'.GetSp) ∧
      (u.Rbp = u'.Rbp → u.GetFp = u'.GetFp)) ∧
    ((i.IP = i'.IP → i.GetIp = i'.GetIp) ∧ (i.Rsp = i'.Rsp → i.GetSp = i'.GetSp) ∧
      (i.Rbp = i'.Rbp → i.GetFp = i'.GetFp)) ∧
    ((m.IP = m'.IP → m.GetIp = m'.GetIp) ∧ (m.Rsp = m'.Rsp → m.GetSp = m'.GetSp) ∧
      (m.Rbp = m'.Rbp → m.GetFp = m'.GetFp)) :=
  ⟨⟨⟨rfl, rfl, rfl, rfl⟩, ⟨rfl, rfl, rfl, rfl⟩, ⟨rfl, rfl, rfl⟩, ⟨rfl, rfl, rfl⟩,
      ⟨rfl, rfl, rfl⟩⟩,
    ⟨id, id, id, id⟩, ⟨id, id, id, id⟩, ⟨id, id, id⟩, ⟨id, id, id⟩, ⟨id, id, id⟩⟩

/-- C8 on the pairs of concrete contexts: each pair agrees on the fields the getters
read and differs in another register, and every getter gives the same result on
both. -/
theorem getters_read_named_field_witness :
    (ARM.sample.IP = ARM.sample2.IP ∧ ARM.sample.SP = ARM.sample2.SP ∧
      ARM.sample.R7 = ARM.sample2.R7 ∧ ARM.sample.LR = ARM.sample2.LR ∧
      ARM.sample.R0 ≠ ARM.sample2.R0) ∧
    (ARM.sample.GetIp = ARM.sample2.GetIp ∧ ARM.sample.GetSp = ARM.sample2.GetSp ∧
      ARM.sample.GetFp = ARM.sample2.GetFp ∧ ARM.sample.GetLr = ARM.sample2.GetLr) ∧
    (ARM64.sample.GetIp = ARM64.sample2.GetIp ∧ ARM64.sample.GetSp = ARM64.sample2.GetSp ∧
      ARM64.sample.GetFp = ARM64.sample2.GetFp ∧
      ARM64.sample.GetLr = ARM64.sample2.GetLr) ∧
    (UNIX_AMD64_ABI.sample.GetIp = UNIX_AMD64_ABI.sample2.GetIp ∧
      UNIX_AMD64_ABI.sample.GetSp = UNIX_AMD64_ABI.sample2.GetSp ∧
      UNIX_AMD64_ABI.sample.GetFp = UNIX_AMD64_ABI.sample2.GetFp) ∧
    (X86.sample.GetIp = X86.sample2.GetIp ∧ X86.sample.GetSp = X86.sample2.GetSp ∧
      X86.sample.GetFp = X86.sample2.GetFp) ∧
    (AMD64.sample.GetIp = AMD64.sample2.GetIp ∧ AMD64.sample.GetSp = AMD64.sample2.GetSp ∧
      AMD64.sample.GetFp = AMD64.sample2.GetFp) :=
  have h := (getters_read_named_field ARM.sample ARM.sample2 ARM64.sample ARM64.sample2
    UNIX_AMD64_ABI.sample UNIX_AMD64_ABI.sample2 X86.sample X86.sample2 AMD64.sample
    AMD64.sample2).2
  ⟨⟨rfl, rfl, rfl, rfl, by decide⟩,
    ⟨h.1.1 rfl, h.1.2.1 rfl, h.1.2.2.1 rfl, h.1.2.2.2 rfl⟩,
    ⟨h.2.1.1 rfl, h.2.1.2.1 rfl, h.2.1.2.2.1 rfl, h.2.1.2.2.2 rfl⟩,
    ⟨h.2.2.1.1 rfl, h.2.2.1.2.1 rfl, h.2.2.1.2.2 rfl⟩,
    ⟨h.2.2.2.1.1 rfl, h.2.2.2.1.2.1 rfl, h.2.2.2.1.2.2 rfl⟩,
    ⟨h.2.2.2.2.1 rfl, h.2.2.2.2.2.1 rfl, h.2.2.2.2.2.2 rfl⟩⟩

end PalRedhawk
